import Mathlib

/-
Verification of the NexusAI job-application intake app (src/app.py).

The development shallowly embeds the submission pipeline of the Flask
application: the WTForms field validators of `ApplicationForm` (including
the framework semantics of `DataRequired`, `NumberRange`, `Length`,
`Optional` and `StopValidation` error clearing), the inline `validate_cv`
file check, the `POST /apply` handler, and the `GET /admin/applications`
listing view.

A decisive wiring fact of the source is embedded rather than repaired: the
POST handler constructs a fresh `ApplicationForm()` whose position choices
are never assigned (they are populated only on the separate form instance
of the `careers` view). WTForms `Field.validate` runs
`SelectField.pre_validate` before the validator chain, and with choices
None it raises TypeError; neither `Form.validate` nor `validate_on_submit`
catches it, and the try block of the route wraps only the sqlite insert.
Every POST that passes the rate limiter therefore ends as an HTTP 500
server error: no field error is flashed, no file is saved, no row is
inserted. The handler code after the validation call (file save, insert,
flashes) is transcribed in the `apply` definition below and shown
unreachable by the theorems.

External dependencies are handled as follows:
- libmagic content sniffing (`magic.Magic(mime=True).from_buffer`) is a
  parameter `detect : List Nat -> String` of every definition that uses it;
  `magicModel` below is one concrete detector used to build witnesses.
- the flask-limiter ceiling declared as `6 per hour` uses the default
  fixed-window strategy with memory storage: a per-client counter whose
  window opens at the first request and expires 3600 seconds later;
  every request increments the counter and is admitted while the counter
  stays at or below 6.
- sqlite3 is modelled as an in-memory table with an AUTOINCREMENT counter.

Out of scope, following the specification: templating, CSRF token checks,
logging, process startup.
-/

namespace NexusAI

/-! ## Python and WTForms primitives -/

/-- Python `str.strip()`: remove leading and trailing whitespace. -/
def pyStrip (s : String) : String :=
  ⟨((s.data.dropWhile Char.isWhitespace).reverse.dropWhile Char.isWhitespace).reverse⟩

/-- Digits of a decimal literal; `none` when some character is not a digit
or the list is empty (Python `int()` rejects both). -/
def parseDigits : List Char → Option Nat
  | [] => none
  | cs =>
    if cs.all Char.isDigit then
      some (cs.foldl (fun a c => a * 10 + (c.toNat - 48)) 0)
    else none

/-- Python `int(s)` on form input: strip whitespace, optional sign, decimal
digits; `none` models the `ValueError` raised on anything else. -/
def pyInt (s : String) : Option Int :=
  match (pyStrip s).data with
  | [] => none
  | c :: rest =>
    if c = '-' then (parseDigits rest).map (fun n => -(n : Int))
    else if c = '+' then (parseDigits rest).map (fun n => (n : Int))
    else (parseDigits (c :: rest)).map (fun n => (n : Int))

/-- WTForms `DataRequired` failure condition on a string field: the data is
empty or consists only of whitespace (falsy, or stripping yields empty). -/
def dataRequiredFails (s : String) : Bool :=
  (pyStrip s).data.isEmpty

/-- Characters after the last dot, or `none` when the list has no dot.
Models `"." in filename` together with `filename.rsplit(".", 1)[1]`. -/
def afterLastDot : List Char → Option (List Char)
  | [] => none
  | c :: cs =>
    match afterLastDot cs with
    | some r => some r
    | none => if c = '.' then some cs else none

/-- Lower-cased extension of a filename: `filename.rsplit(".", 1)[1].lower()`,
`none` when the filename contains no dot. -/
def extOf (filename : String) : Option String :=
  (afterLastDot filename.data).map (fun cs => ⟨cs.map Char.toLower⟩)

/-- Unhandled Python exception escaping the view function; Flask turns it
into an HTTP 500 response with no flash and no side effect. -/
inductive PyError
  | typeError
deriving Repr, DecidableEq

/-! ## Configuration constants of app.py -/

/-- ALLOWED_EXTENSIONS from app.py. -/
def ALLOWED_EXTENSIONS : List String := ["pdf", "doc", "docx"]

/-- ALLOWED_MIMETYPES from app.py. -/
def ALLOWED_MIMETYPES : List String :=
  ["application/pdf",
   "application/msword",
   "application/vnd.openxmlformats-officedocument.wordprocessingml.document"]

/-- Position choices as the `careers` view populates them — on the local
form instance of that view only; the form constructed by the POST handler
never receives them, its choices stay None. -/
def positionChoices : List String :=
  ["", "Senior Full-Stack Developer", "Junior Developer"]

/-- Default error message of WTForms `DataRequired`. -/
def requiredMsg : String := "This field is required."

/-- Custom `DataRequired` message declared on the position field. -/
def positionRequiredMsg : String := "Please select a position"

/-- Error message of WTForms `NumberRange(min=0, max=60)`. -/
def rangeMsg : String := "Number must be between 0 and 60."

/-- Error message of WTForms `Length(max=n)`. -/
def lengthMsg (n : Nat) : String :=
  "Field cannot be longer than " ++ toString n ++ " characters."

/-! ## Data model -/

/-- Uploaded file as seen by the form: original filename and byte content. -/
structure CvFile where
  filename : String
  content : List Nat
deriving Repr, DecidableEq

/-- Raw multipart form data of one `POST /apply` request, one string per
text field (a missing field behaves as the empty string) and an optional
uploaded file. -/
structure Submission where
  position : String
  full_name : String
  email : String
  phone : String
  location : String
  experience : String
  cover_letter : String
  consent : String
  cv : Option CvFile
deriving Repr, DecidableEq

/-- One row of the `applications` table. `consent_given` is the INTEGER
column (0 or 1); `submitted_at` is the insert-time timestamp. -/
structure Row where
  id : Nat
  position : String
  full_name : String
  email : String
  phone : String
  location : String
  experience_years : Int
  cover_letter : String
  cv_filename : Option String
  consent_given : Nat
  submitted_at : Nat
deriving Repr, DecidableEq

/-- The sqlite database: the `applications` rows plus the AUTOINCREMENT
counter that assigns the next primary key. -/
structure DB where
  rows : List Row
  nextId : Nat
deriving Repr, DecidableEq

/-- Fresh database created by `init_db`: empty table, ids start at 1. -/
def init_db : DB := ⟨[], 1⟩

/-! ## Field validators

Each function returns the final error result of one field after running
its validator chain, with the WTForms semantics: `pre_validate` runs first,
validators run in order, `StopValidation` (raised by `DataRequired` after
clearing already collected errors) ends the chain; an exception other than
the collected validation errors propagates out of `Form.validate`. -/

/-- Validation of the position SelectField as `Field.validate` runs it:
`pre_validate` first — with choices None (the POST handler never assigns
them) WTForms raises TypeError, which `Form.validate` does not catch —
then, when choices exist, membership is checked and the `DataRequired`
validator with its custom message runs, clearing the choice error when the
data is falsy. -/
def positionErrors (choices : Option (List String)) (p : String) :
    Except PyError (List String) :=
  match choices with
  | none => Except.error PyError.typeError
  | some cs =>
    Except.ok
      (if dataRequiredFails p then [positionRequiredMsg]
       else if cs.contains p then []
       else ["Not a valid choice"])

/-- Errors of a StringField with `DataRequired` and `Length(max=maxLen)`
(full_name, phone, location, cover_letter). -/
def stringFieldErrors (maxLen : Nat) (s : String) : List String :=
  if dataRequiredFails s then [requiredMsg]
  else if maxLen < s.data.length then [lengthMsg maxLen]
  else []

/-- Errors of the `email` field: `DataRequired` then the email validator,
modelled by its minimal guarantee that the address contains an at sign. -/
def emailErrors (e : String) : List String :=
  if dataRequiredFails e then [requiredMsg]
  else if e.data.contains '@' then []
  else ["Invalid email address."]

/-- Errors of the `experience` IntegerField with `DataRequired` and
`NumberRange(min=0, max=60)`. When coercion fails the field data is None
and when it yields 0 the data is falsy; in both cases `DataRequired`
clears the collected errors (including the coercion message) and stops
with the required-field message. -/
def experienceErrors (s : String) : List String :=
  match pyInt s with
  | none => [requiredMsg]
  | some n =>
    if n = 0 then [requiredMsg]
    else if n < 0 ∨ 60 < n then [rangeMsg]
    else []

/-- Errors of the `consent` StringField: only `DataRequired`. -/
def consentErrors (s : String) : List String :=
  if dataRequiredFails s then [requiredMsg]
  else []

/-- Errors of the `cv` FileField: `Optional()` stops the chain when no file
is attached; otherwise the inline `validate_cv` raises on a disallowed
extension, then sniffs the first 1024 bytes of the content (the
`field.data.read(1024)` call) and raises when the detected media type is
not an allowed document type. The function embeds the decision of the
check itself: which uploads it accepts and which error it raises. -/
def validate_cv (detect : List Nat → String) (cv : Option CvFile) : List String :=
  match cv with
  | none => []
  | some f =>
    if f.filename.data.isEmpty then []
    else
      match extOf f.filename with
      | none => ["Only PDF, DOC, DOCX allowed"]
      | some e =>
        if ALLOWED_EXTENSIONS.contains e then
          if ALLOWED_MIMETYPES.contains (detect (f.content.take 1024)) then []
          else ["Invalid file content – only PDF/Word documents allowed"]
        else ["Only PDF, DOC, DOCX allowed"]

/-- Tag every message of one field with the field name. -/
def tagField (name : String) (msgs : List String) : List (String × String) :=
  msgs.map (fun m => (name, m))

/-- Run of `form.validate_on_submit()`: fields are validated in declaration
order, position first. With choices None the TypeError from the position
field aborts the whole validation; otherwise every field is validated
independently and the collected errors are returned in field order. -/
def form_validate (choices : Option (List String)) (detect : List Nat → String)
    (s : Submission) : Except PyError (List (String × String)) :=
  match positionErrors choices s.position with
  | Except.error e => Except.error e
  | Except.ok perrs =>
    Except.ok
      (tagField ("position") perrs ++
       tagField ("full_name") (stringFieldErrors 120 s.full_name) ++
       tagField ("email") (emailErrors s.email) ++
       tagField ("phone") (stringFieldErrors 30 s.phone) ++
       tagField ("location") (stringFieldErrors 100 s.location) ++
       tagField ("experience") (experienceErrors s.experience) ++
       tagField ("cover_letter") (stringFieldErrors 4000 s.cover_letter) ++
       tagField ("cv") (validate_cv detect s.cv) ++
       tagField ("consent") (consentErrors s.consent))

/-! ## The rate limiter -/

/-- Per-client fixed-window counter of flask-limiter with memory storage:
the window opens at the first request of the window and the counter key
expires 3600 seconds later. -/
structure LimiterState where
  windowStart : Nat
  count : Nat
deriving Repr, DecidableEq

/-- One limiter hit for the `6 per hour` limit: the counter is incremented
(a fresh window is opened when none is active or the active one has
expired) and the request is admitted while the incremented counter stays
at or below 6. Every request is counted, whatever its outcome. -/
def limiterHit (st : Option LimiterState) (now : Nat) :
    Option LimiterState × Bool :=
  match st with
  | some w =>
    if now < w.windowStart + 3600 then
      (some ⟨w.windowStart, w.count + 1⟩, decide (w.count + 1 ≤ 6))
    else
      (some ⟨now, 1⟩, true)
  | none => (some ⟨now, 1⟩, true)

/-- Process a list of request times through the limiter, returning the
final state and the per-request admission decisions. -/
def limiterRun (times : List Nat) : Option LimiterState × List Bool :=
  times.foldl
    (fun acc t => ((limiterHit acc.1 t).1, acc.2 ++ [(limiterHit acc.1 t).2]))
    (none, [])

/-! ## The POST /apply handler -/

/-- Outcome of one request to the handler. `serverError` is the HTTP 500
produced when the TypeError from validation escapes the view. -/
inductive Outcome
  | rateLimited
  | serverError
  | rejected
  | succeeded
  | failed
deriving Repr, DecidableEq

/-- Observable effect of one request: outcome, database afterwards, the
filenames written to the upload store by this request, the flashed
messages with their categories, and the limiter state afterwards. -/
structure ApplyResult where
  outcome : Outcome
  db : DB
  savedFiles : List String
  flashes : List (String × String)
  lim : Option LimiterState
deriving Repr, DecidableEq

/-- Stored name of the uploaded file, `f"{uuid.uuid4().hex}.{ext}"`, with
the hex token of `uuid4` passed in as `genHex`; `none` when no file with a
non-empty filename is attached (the `if cv_file and cv_file.filename`
guard). -/
def storedName (genHex : String) (cv : Option CvFile) : Option String :=
  match cv with
  | none => none
  | some f =>
    if f.filename.data.isEmpty then none
    else some (genHex ++ "." ++ (extOf f.filename).getD (""))

/-- Row built by the INSERT statement of the handler: stripped text fields,
the coerced experience integer, the generated cv filename, and
`1 if form.consent.data == "on" else 0`. -/
def mkRow (rid : Nat) (s : Submission) (cvn : Option String) (now : Nat) : Row :=
  { id := rid
    position := s.position
    full_name := pyStrip s.full_name
    email := pyStrip s.email
    phone := pyStrip s.phone
    location := pyStrip s.location
    experience_years := (pyInt s.experience).getD 0
    cover_letter := pyStrip s.cover_letter
    cv_filename := cvn
    consent_given := if s.consent = "on" then 1 else 0
    submitted_at := now }

/-- Success flash of the handler. -/
def successMsg : String :=
  "Application submitted successfully! We\u0027ll be in touch soon."

/-- Generic failure flash of the handler (storage errors are not leaked). -/
def failureMsg : String :=
  "Sorry, something went wrong. Please try again later."

/-- The `POST /apply` handler. The limiter decorator runs first and
answers 429 when the hit is not admitted. Otherwise the view constructs a
fresh `ApplicationForm()` — so `form_validate` receives None for the
position choices and always raises TypeError, which escapes as a 500 with
no flash, no file write and no insert. The branches after validation
transcribe the source text of the handler (flash every collected error; or
save the file, insert the row — `insertOk` says whether the sqlite INSERT
succeeds — and flash the outcome); the theorems below show they are
unreachable. -/
def apply (detect : List Nat → String) (lim : Option LimiterState) (now : Nat)
    (genHex : String) (insertOk : Bool) (db : DB) (s : Submission) : ApplyResult :=
  if (limiterHit lim now).2 then
    match form_validate none detect s with
    | Except.error _ =>
      { outcome := Outcome.serverError, db := db, savedFiles := [], flashes := []
        lim := (limiterHit lim now).1 }
    | Except.ok errs =>
      if errs = [] then
        if insertOk then
          { outcome := Outcome.succeeded
            db := { rows := db.rows ++ [mkRow db.nextId s (storedName genHex s.cv) now]
                    nextId := db.nextId + 1 }
            savedFiles := (storedName genHex s.cv).toList
            flashes := [(successMsg, "success")]
            lim := (limiterHit lim now).1 }
        else
          { outcome := Outcome.failed, db := db
            savedFiles := (storedName genHex s.cv).toList
            flashes := [(failureMsg, "error")]
            lim := (limiterHit lim now).1 }
      else
        { outcome := Outcome.rejected, db := db, savedFiles := []
          flashes := errs.map (fun p => (p.1 ++ ": " ++ p.2, "error"))
          lim := (limiterHit lim now).1 }
  else
    { outcome := Outcome.rateLimited, db := db, savedFiles := [], flashes := []
      lim := (limiterHit lim now).1 }

/-! ## The admin listing view -/

/-- The `GET /admin/applications` view: SELECT * FROM applications ORDER BY
submitted_at DESC, returning the rendered rows and leaving the database
unchanged. -/
def view_applications (db : DB) : List Row × DB :=
  (db.rows.mergeSort (fun a b => b.submitted_at ≤ a.submitted_at), db)

/-! ## Concrete detector and sample data for witnesses -/

/-- Concrete media-type detector standing in for libmagic in witnesses:
recognises the PDF, legacy-Word and zip (docx) magic numbers at the start
of the buffer. Every claim theorem quantifies over the detector, so this
model is used only to instantiate witnesses and concrete evaluations. -/
def magicModel (content : List Nat) : String :=
  if content.take 5 = [0x25, 0x50, 0x44, 0x46, 0x2D] then "application/pdf"
  else if content.take 4 = [0xD0, 0xCF, 0x11, 0xE0] then "application/msword"
  else if content.take 4 = [0x50, 0x4B, 0x03, 0x04] then
    "application/vnd.openxmlformats-officedocument.wordprocessingml.document"
  else if content.isEmpty then "application/x-empty"
  else "application/octet-stream"

/-- Fully valid sample submission without a file (the success scenario of
the specification). -/
def validSub : Submission :=
  { position := "Junior Developer"
    full_name := "Jane Doe"
    email := "jane@x.com"
    phone := "555-1234"
    location := "Berlin, Germany"
    experience := "3"
    cover_letter := "I enjoy building things."
    consent := "on"
    cv := none }

/-- Submission identical to `validSub` except that the experience field is
the string 0, which coerces to the integer 0, inside the declared range. -/
def subZero : Submission := { validSub with experience := "0" }

/-- Submission identical to `validSub` except that the consent value is the
string no: non-empty, yet not the affirmative marker on. -/
def consentNoSub : Submission := { validSub with consent := "no" }

/-- Submission with two invalid fields: an empty full_name and an email
address without an at sign. -/
def twoBadSub : Submission := { validSub with full_name := "", email := "nowhere" }

/-- Upload whose filename carries an allowed extension but whose content is
not a document of any allowed type. -/
def badCv : CvFile := ⟨"resume.pdf", [9, 9, 9]⟩

/-- Submission identical to `validSub` but carrying `badCv`. -/
def badCvSub : Submission := { validSub with cv := some badCv }

/-- Upload carrying a genuine PDF magic number. -/
def pdfCv : CvFile := ⟨"resume.pdf", [0x25, 0x50, 0x44, 0x46, 0x2D, 0x31]⟩

/-- Submission identical to `validSub` but carrying `pdfCv`. -/
def pdfCvSub : Submission := { validSub with cv := some pdfCv }

/-! ## Claims -/

/-- Claim C1 (code bug, evaluated at the failing input): a submission whose
experience field is the string 0 — an integer inside the declared range
[0, 60] — with every other field valid is never accepted: the POST handler
validates a form whose position choices are None, so validation raises
TypeError and the request ends as a server error with no row persisted and
no field error surfaced. Moreover the experience validator chain declared
in the source would itself reject the in-range value 0 with the
required-field message (`DataRequired` treats the coerced 0 as falsy),
while out-of-range input draws the distinct range message, and non-numeric
input also ends at the required-field message. -/
theorem experience_zero_never_accepted :
    (apply magicModel none 0 ("cafe") true init_db subZero).outcome
      = Outcome.serverError ∧
    (apply magicModel none 0 ("cafe") true init_db subZero).db.rows = [] ∧
    (apply magicModel none 0 ("cafe") true init_db subZero).flashes = [] ∧
    experienceErrors ("0") = [requiredMsg] ∧
    experienceErrors ("-1") = [rangeMsg] ∧
    experienceErrors ("abc") = [requiredMsg] ∧
    requiredMsg ≠ rangeMsg := by
  decide

/-- Claim C2 (code bug, evaluated at the failing inputs): no consent gate
exists in the running code. A submission with empty consent draws no
consent field error — the request dies as a server error with nothing
flashed and nothing persisted — and a submission with the non-affirmative
consent value no meets the same fate. The declared validators would not
enforce affirmativeness either: `DataRequired` rejects only the empty
value, accepts no, and the INSERT tuple records consent_given 0 for any
value other than on. -/
theorem consent_gate_never_enforced :
    (apply magicModel none 0 ("cafe") true init_db
      { validSub with consent := "" }).outcome = Outcome.serverError ∧
    (apply magicModel none 0 ("cafe") true init_db
      { validSub with consent := "" }).flashes = [] ∧
    (apply magicModel none 0 ("cafe") true init_db
      { validSub with consent := "" }).db.rows = [] ∧
    (apply magicModel none 0 ("cafe") true init_db consentNoSub).outcome
      = Outcome.serverError ∧
    (apply magicModel none 0 ("cafe") true init_db consentNoSub).db.rows = [] ∧
    consentErrors ("") = [requiredMsg] ∧
    consentErrors ("no") = [] ∧
    (mkRow 1 consentNoSub none 0).consent_given = 0 := by
  decide

/-- Claim C3 (code bug, evaluated at the failing input): the content
mismatch error is never surfaced. The check itself (`validate_cv`) would
reject the resume.pdf upload whose bytes are no document with the
content-mismatch message, but the request crashes with a server error at
the position field before `validate_cv` runs: nothing is flashed, no file
is written, the database is untouched. -/
theorem content_mismatch_never_surfaced :
    validate_cv magicModel (some badCv)
      = ["Invalid file content – only PDF/Word documents allowed"] ∧
    (apply magicModel none 0 ("cafe") true init_db badCvSub).outcome
      = Outcome.serverError ∧
    (apply magicModel none 0 ("cafe") true init_db badCvSub).flashes = [] ∧
    (apply magicModel none 0 ("cafe") true init_db badCvSub).savedFiles = [] ∧
    (apply magicModel none 0 ("cafe") true init_db badCvSub).db = init_db := by
  decide

/-- Claim C4 (code bug): the collected field-error list is never shown to
the caller. For every request whatsoever the handler flashes nothing —
validation raises TypeError before any error is collected — and in
particular the submission with two invalid fields draws a server error
with an empty flash list instead of its two field errors. -/
theorem no_error_list_ever_flashed :
    (∀ (detect : List Nat → String) (lim : Option LimiterState) (now : Nat)
      (g : String) (ok : Bool) (db : DB) (s : Submission),
      (apply detect lim now g ok db s).flashes = []) ∧
    (apply magicModel none 0 ("cafe") true init_db twoBadSub).outcome
      = Outcome.serverError := by
  constructor
  · intro detect lim now g ok db s
    by_cases hb : (limiterHit lim now).2
    · simp [apply, hb, form_validate, positionErrors]
    · simp [apply, hb]
  · decide

/-- Claim C5: every request fails before the persisting stage — it is
either rate limited or dies in validation with a server error — and on
every such pre-persist failure zero database rows are written and zero
files are written to the upload store; no partially populated row can ever
exist. -/
theorem no_side_effects_before_persisting (detect : List Nat → String)
    (lim : Option LimiterState) (now : Nat) (g : String) (ok : Bool)
    (db : DB) (s : Submission) :
    (apply detect lim now g ok db s).db = db ∧
    (apply detect lim now g ok db s).savedFiles = [] ∧
    ((apply detect lim now g ok db s).outcome = Outcome.rateLimited ∨
     (apply detect lim now g ok db s).outcome = Outcome.serverError) := by
  by_cases hb : (limiterHit lim now).2
  · simp [apply, hb, form_validate, positionErrors]
  · simp [apply, hb]

/-- Claim C6 (code bug, evaluated at the failing input): no submission ever
succeeds, so no row is ever created. The fully valid sample submission
ends as a server error with the database unchanged, and submitting it a
second time (threading the limiter state and database through) again ends
as a server error with zero rows. -/
theorem valid_submission_never_persisted :
    (apply magicModel none 5 ("aaaa") true init_db validSub).outcome
      = Outcome.serverError ∧
    (apply magicModel none 5 ("aaaa") true init_db validSub).db = init_db ∧
    (apply magicModel (apply magicModel none 5 ("aaaa") true init_db validSub).lim 9
        ("bbbb") true (apply magicModel none 5 ("aaaa") true init_db validSub).db
        validSub).outcome = Outcome.serverError ∧
    (apply magicModel (apply magicModel none 5 ("aaaa") true init_db validSub).lim 9
        ("bbbb") true (apply magicModel none 5 ("aaaa") true init_db validSub).db
        validSub).db.rows = [] := by
  decide

/-- Claim C7 counterexample: the fixed-window limiter admits a seventh
submission within a trailing hour. A first request at second 10 opens the
window; five requests at seconds 3605 to 3609 fill it to six; the request
at second 3610 falls after the window expiry and opens a fresh window, so
it is admitted; the request at second 3611 is then the seventh submission
within the six-second span 3605 to 3611 — well inside one hour — and it
too passes the limiter and reaches validation (ending as a server error,
not rate limited). -/
theorem seventh_within_hour_not_rate_limited :
    (limiterRun [10, 3605, 3606, 3607, 3608, 3609, 3610]).2
      = [true, true, true, true, true, true, true] ∧
    3611 - 3605 < 3600 ∧
    (apply magicModel (limiterRun [10, 3605, 3606, 3607, 3608, 3609, 3610]).1 3611
        ("cafe") true init_db validSub).outcome ≠ Outcome.rateLimited := by
  decide

/-- Claim C7 (amended): the ceiling is a fixed one-hour window opened at
the first request of the window. A request arriving while the window is
active with six requests already counted is rejected rate limited before
any validation work, independent of the payload, with no other effect than
the counter increment; hence at most six requests per fixed window proceed
past the limiter, while a trailing hour spanning a window boundary can
admit a seventh. -/
theorem seventh_in_same_window_rate_limited (detect : List Nat → String)
    (w : LimiterState) (now : Nat) (g : String) (ok : Bool) (db : DB)
    (s : Submission)
    (hactive : now < w.windowStart + 3600) (hcount : 6 ≤ w.count) :
    apply detect (some w) now g ok db s =
      { outcome := Outcome.rateLimited, db := db, savedFiles := [], flashes := []
        lim := some ⟨w.windowStart, w.count + 1⟩ } := by
  have hb : (limiterHit (some w) now).2 = false := by
    simp [limiterHit, hactive]
    omega
  have hs : (limiterHit (some w) now).1 = some ⟨w.windowStart, w.count + 1⟩ := by
    simp [limiterHit, hactive]
  simp [apply, hb, hs]

/-- Claim C7 witness: a seventh request inside an active window that
already counted six is rate limited. -/
theorem seventh_in_same_window_rate_limited_witness :
    100 < (⟨0, 6⟩ : LimiterState).windowStart + 3600 ∧
    6 ≤ (⟨0, 6⟩ : LimiterState).count ∧
    apply magicModel (some ⟨0, 6⟩) 100 ("cafe") true init_db validSub =
      { outcome := Outcome.rateLimited, db := init_db, savedFiles := [], flashes := []
        lim := some ⟨0, 7⟩ } :=
  ⟨by decide, by decide,
   seventh_in_same_window_rate_limited magicModel ⟨0, 6⟩ 100 ("cafe") true init_db
     validSub (by decide) (by decide)⟩

/-- Claim C8: the listing view leaves the database unchanged and returns a
permutation of all stored rows — no filtering — ordered by submitted_at
descending. -/
theorem view_applications_complete_sorted_readonly (db : DB) :
    (view_applications db).2 = db ∧
    ((view_applications db).1).Perm db.rows ∧
    ((view_applications db).1).Pairwise (fun a b => b.submitted_at ≤ a.submitted_at) := by
  refine ⟨rfl, List.mergeSort_perm _ _, ?_⟩
  have h : (db.rows.mergeSort (fun a b => decide (b.submitted_at ≤ a.submitted_at))).Pairwise
      (fun a b => decide (b.submitted_at ≤ a.submitted_at) = true) := by
    apply List.sorted_mergeSort
    · intro a b c hab hbc
      simp at *
      omega
    · intro a b
      simp
      omega
  exact h.imp (fun hab => by simpa using hab)

/-- Claim C9: the media-type decision of the cv validator reads only the
first 1024 bytes of the upload: two files with the same name whose first
1024 bytes agree draw the identical accept or reject result, whatever
detector is plugged in, so content beyond the first kilobyte never changes
the decision. -/
theorem cv_decision_depends_only_on_first_1024 (detect : List Nat → String)
    (name : String) (b1 b2 : List Nat)
    (h : b1.take 1024 = b2.take 1024) :
    validate_cv detect (some ⟨name, b1⟩) = validate_cv detect (some ⟨name, b2⟩) := by
  simp only [validate_cv]
  rw [h]

/-- Claim C9 witness: a 1025-byte file and a file that differs from it in
the final byte draw the same decision. -/
theorem cv_decision_depends_only_on_first_1024_witness :
    (List.replicate 1025 (37 : Nat)).take 1024
      = (List.replicate 1024 (37 : Nat) ++ [99]).take 1024 ∧
    validate_cv magicModel (some ⟨"cv.pdf", List.replicate 1025 (37 : Nat)⟩)
      = validate_cv magicModel (some ⟨"cv.pdf", List.replicate 1024 (37 : Nat) ++ [99]⟩) := by
  have h : (List.replicate 1025 (37 : Nat)).take 1024
      = (List.replicate 1024 (37 : Nat) ++ [99]).take 1024 := by
    rw [List.take_replicate, List.take_left' (List.length_replicate 1024 37)]
    simp
  exact ⟨h, cv_decision_depends_only_on_first_1024 magicModel ("cv.pdf") _ _ h⟩

/-- Claim C10 (code bug, evaluated at the failing input): the insert
failure path is unreachable, so the orphaned file the claim describes can
never exist. The cv check itself would accept the genuine PDF upload, yet
the request with a failing insert still dies as a server error during
validation, before the file-save block: no file is written to the upload
store, the database is untouched, and only the limiter counted the
request. -/
theorem insert_failure_orphan_unreachable :
    validate_cv magicModel (some pdfCv) = [] ∧
    (apply magicModel none 0 ("cafe") false init_db pdfCvSub).outcome
      = Outcome.serverError ∧
    (apply magicModel none 0 ("cafe") false init_db pdfCvSub).savedFiles = [] ∧
    (apply magicModel none 0 ("cafe") false init_db pdfCvSub).db = init_db ∧
    (apply magicModel none 0 ("cafe") false init_db pdfCvSub).flashes = [] := by
  decide

end NexusAI
